import Mathlib

/-!
Shallow embedding of the Aim-Trainer engine of src/js/game.js.

The source is a revealing-module closure over mutable `let` variables
(isPlaying, isPaused, score, timeLeft, targetsHit, targetsMissed, accuracy,
currentDifficulty, currentMode, activeTargets, leaderboard) together with two
interval handles (gameTimer, targetSpawnTimer) and, per spawned target, one
setTimeout expiry that is never stored and never cancelled.  We embed the
mutable variables as a `GameState` record, interval registration as two
Boolean flags (setInterval sets the flag, clearInterval clears it), and the
per-target expiry timeouts as the list `pendingExpiries` of target ids whose
timeout has been scheduled but has not fired yet.  DOM reads and writes,
sounds, vibration and console logging have no engine-visible effect and are
dropped.  Math.random draws, Date.now values and canvas dimensions enter as
explicit parameters.  JS numbers are embedded as rationals or integers; every
number the engine produces is exact in these types.
-/

namespace AimTrainer

inductive Difficulty where
  | easy
  | normal
  | hard
  | expert
  deriving DecidableEq, Repr

inductive Mode where
  | timed
  | endless
  deriving DecidableEq, Repr

/-- config.gameDuration (game.js lines 41-44). -/
def gameDuration : Mode → ℤ
  | .timed => 30
  | .endless => 999999

/-- config.targetSpawnRate (game.js lines 45-50), in milliseconds. -/
def targetSpawnRate : Difficulty → ℤ
  | .easy => 1500
  | .normal => 1000
  | .hard => 700
  | .expert => 500

/-- config.targetSize (game.js lines 51-56): the target radius in pixels. -/
def targetSize : Difficulty → ℚ
  | .easy => 60
  | .normal => 50
  | .hard => 40
  | .expert => 30

/-- config.targetLifetime (game.js lines 57-62), in milliseconds. -/
def targetLifetime : Difficulty → ℤ
  | .easy => 3000
  | .normal => 2000
  | .hard => 1500
  | .expert => 1000

/-- config.scoreMultiplier (game.js lines 63-68). -/
def scoreMultiplier : Difficulty → ℤ
  | .easy => 1
  | .normal => 2
  | .hard => 3
  | .expert => 5

/-- A target object as built by spawnTarget (game.js lines 463-474). -/
structure Target where
  id : ℚ
  x : ℚ
  y : ℚ
  radius : ℚ
  spawnTime : ℚ
  lifetime : ℤ
  isHover : Bool
  opacity : ℚ
  deriving DecidableEq, Repr

/-- A leaderboard entry as built by saveToLeaderboard (game.js lines 783-789).
The source stores the timestamp in the field named date (an ISO string from
new Date().toISOString()); we embed it as the underlying epoch instant. -/
structure Entry where
  score : ℤ
  accuracy : ℤ
  difficulty : Difficulty
  mode : Mode
  date : ℤ
  deriving DecidableEq, Repr

/-- The mutable module variables of game.js (lines 19-31, 78) together with
the timer bookkeeping: gameTimerOn and spawnTimerOn record whether the
corresponding setInterval is currently registered, and pendingExpiries
records the target ids whose per-target setTimeout expiry (game.js lines
479-486) has been scheduled and has not fired yet.  The source never stores
or cancels those timeouts, so nothing in the embedding ever removes an entry
from pendingExpiries except the timeout itself firing.  canvasW and canvasH
are the canvas dimensions read by spawnTarget. -/
structure GameState where
  isPlaying : Bool
  isPaused : Bool
  score : ℤ
  timeLeft : ℤ
  targetsHit : ℕ
  targetsMissed : ℕ
  accuracy : ℤ
  currentDifficulty : Difficulty
  currentMode : Mode
  activeTargets : List Target
  leaderboard : List Entry
  canvasW : ℚ
  canvasH : ℚ
  gameTimerOn : Bool
  spawnTimerOn : Bool
  pendingExpiries : List ℚ
  deriving DecidableEq, Repr

/-- JS Math.round on a nonnegative value: round half toward positive
infinity, Math.round x = floor (x + 1/2). -/
def jsRound (q : ℚ) : ℤ := ⌊q + 1 / 2⌋

/-- The accuracy computation of updateAccuracy (game.js lines 580-587):
total > 0 ? Math.round((targetsHit / total) * 100) : 100. -/
def accuracyOf (hit missed : ℕ) : ℤ :=
  if 0 < hit + missed then jsRound (((hit : ℚ) / ((hit : ℚ) + (missed : ℚ))) * 100) else 100

/-- updateAccuracy (game.js lines 580-587); the DOM write is dropped. -/
def updateAccuracy (s : GameState) : GameState :=
  { s with accuracy := accuracyOf s.targetsHit s.targetsMissed }

/-- The per-target distance test of checkTargetHit (game.js lines 444-449):
Math.sqrt((x - t.x)^2 + (y - t.y)^2) <= t.radius.  Over the reals, for
nonnegative d2, sqrt d2 <= r holds exactly when 0 <= r and d2 <= r^2, so the
square root is eliminated to keep the test exact over the rationals. -/
def withinRadius (x y : ℚ) (t : Target) : Bool :=
  decide (0 ≤ t.radius ∧ (x - t.x) ^ 2 + (y - t.y) ^ 2 ≤ t.radius ^ 2)

/-- checkTargetHit (game.js lines 441-455): the loop runs i from
activeTargets.length - 1 down to 0 and returns the first target within its
radius of (x, y), i.e. the first match in reverse insertion order. -/
def checkTargetHit (x y : ℚ) (ts : List Target) : Option Target :=
  ts.reverse.find? (withinRadius x y)

/-- handleCanvasClick (game.js lines 177-196) at playfield-local coordinates
(x, y).  In the source, `const hitTarget = checkTargetHit(x, y)` shadows the
module-level hit-handler function also named hitTarget (lines 493-518), so on
a successful lookup `hitTarget(hitTarget)` invokes the target object itself,
which is not callable: a TypeError propagates out of the listener before any
state mutation, embedded as the error branch.  The miss branch (no target
under the point) increments targetsMissed and recomputes accuracy. -/
def handleCanvasClick (x y : ℚ) (s : GameState) : Except String GameState :=
  if !s.isPlaying || s.isPaused then .ok s
  else
    match checkTargetHit x y s.activeTargets with
    | some _ => .error "TypeError: hitTarget is not a function"
    | none => .ok (updateAccuracy { s with targetsMissed := s.targetsMissed + 1 })

/-- Whether an Except value is the error branch. -/
def isErrorResult : Except String GameState → Bool
  | .error _ => true
  | .ok _ => false

/-- The module-level hit handler hitTarget (game.js lines 493-518): remove
the first target with the given id (findIndex then splice), increment
targetsHit, add 10 times the difficulty multiplier to score, recompute
accuracy.  Unreachable from handleCanvasClick because of the shadowing
described there. -/
def hitTargetFn (t : Target) (s : GameState) : GameState :=
  let s1 := { s with activeTargets := s.activeTargets.eraseP (fun u => u.id == t.id) }
  updateAccuracy { s1 with
    targetsHit := s1.targetsHit + 1,
    score := s1.score + 10 * scoreMultiplier s1.currentDifficulty }

/-- The body of the expiry setTimeout scheduled by spawnTarget (game.js lines
479-486): if a target with the captured id is still active, remove it,
increment targetsMissed and recompute accuracy; otherwise do nothing. -/
def expiryCallback (id : ℚ) (s : GameState) : GameState :=
  if s.activeTargets.any (fun t => t.id == id) then
    updateAccuracy { s with
      activeTargets := s.activeTargets.eraseP (fun t => t.id == id),
      targetsMissed := s.targetsMissed + 1 }
  else s

/-- The target object built by spawnTarget (game.js lines 463-474), with the
two Math.random() draws rx, ry in [0, 1), Date.now() = now, and the
Math.random() summand of the id as idFuzz. -/
def mkSpawnTarget (rx ry now idFuzz : ℚ) (w h : ℚ) (d : Difficulty) : Target :=
  { id := now + idFuzz
    x := rx * (w - targetSize d * 2) + targetSize d
    y := ry * (h - targetSize d * 2) + targetSize d
    radius := targetSize d
    spawnTime := now
    lifetime := targetLifetime d
    isHover := false
    opacity := 1 }

/-- spawnTarget (game.js lines 460-487): returns immediately when not playing
or paused; otherwise appends a fresh target to activeTargets and schedules
its expiry timeout (recorded in pendingExpiries). -/
def spawnTarget (rx ry now idFuzz : ℚ) (s : GameState) : GameState :=
  if !s.isPlaying || s.isPaused then s
  else
    let t := mkSpawnTarget rx ry now idFuzz s.canvasW s.canvasH s.currentDifficulty
    { s with activeTargets := s.activeTargets ++ [t],
             pendingExpiries := s.pendingExpiries ++ [t.id] }

/-- resetGameState (game.js lines 812-823): zero the counters, reload
timeLeft from the mode duration, clear the active targets, and run the
trailing updateAccuracy() call. -/
def resetGameState (s : GameState) : GameState :=
  updateAccuracy { s with
    score := 0
    timeLeft := gameDuration s.currentMode
    targetsHit := 0
    targetsMissed := 0
    accuracy := 100
    activeTargets := [] }

/-- startGame (game.js lines 286-317): no-op while isPlaying; otherwise
resetGameState, set the flags, and register both intervals via startTimer and
startTargetSpawning. -/
def startGame (s : GameState) : GameState :=
  if s.isPlaying then s
  else
    let s1 := resetGameState s
    { s1 with isPlaying := true, isPaused := false,
              gameTimerOn := true, spawnTimerOn := true }

/-- pauseGame (game.js lines 339-350): clearInterval on the session clock and
the spawner.  It does not touch isPaused (togglePause does) and it does not
cancel any pending per-target expiry timeout. -/
def pauseGame (s : GameState) : GameState :=
  { s with gameTimerOn := false, spawnTimerOn := false }

/-- resumeGame (game.js lines 355-366): re-register both intervals.  No state
guard: the source starts the timers whatever the current state is. -/
def resumeGame (s : GameState) : GameState :=
  { s with gameTimerOn := true, spawnTimerOn := true }

/-- togglePause (game.js lines 322-334): no-op unless playing; otherwise flip
isPaused and run pauseGame or resumeGame accordingly. -/
def togglePause (s : GameState) : GameState :=
  if !s.isPlaying then s
  else
    let s1 := { s with isPaused := !s.isPaused }
    if s1.isPaused then pauseGame s1 else resumeGame s1

/-- stopGame (game.js lines 390-404): no-op unless playing; otherwise clear
the flags, clearInterval both intervals, and empty activeTargets.  Pending
expiry timeouts are not cancelled (the source never stores their handles). -/
def stopGame (s : GameState) : GameState :=
  if !s.isPlaying then s
  else { s with isPlaying := false, isPaused := false,
                gameTimerOn := false, spawnTimerOn := false,
                activeTargets := [] }

/-- calculateFinalScore (game.js lines 592-599): score += accuracy * 10, then
score *= scoreMultiplier of the current difficulty. -/
def calculateFinalScore (s : GameState) : GameState :=
  let s1 := { s with score := s.score + s.accuracy * 10 }
  { s1 with score := s1.score * scoreMultiplier s1.currentDifficulty }

/-- The comparator of saveToLeaderboard (game.js line 792), (a, b) =>
b.score - a.score, as the ordering relation it sorts by: descending score. -/
def byScoreDesc (a b : Entry) : Prop := b.score ≤ a.score

instance : DecidableRel byScoreDesc :=
  fun a b => inferInstanceAs (Decidable (b.score ≤ a.score))

instance : IsTotal Entry byScoreDesc :=
  ⟨fun a b => le_total b.score a.score⟩

instance : IsTrans Entry byScoreDesc :=
  ⟨fun _ _ _ hab hbc => le_trans hbc hab⟩

/-- Array.prototype.sort with the comparator above.  JS Array sort is
required to be stable, and a stable descending-by-score sort of a list is the
unique permutation that is sorted descending and keeps equal-score elements
in their original relative order; insertion sort with the non-strict
comparator has exactly that behavior. -/
def sortEntries (l : List Entry) : List Entry :=
  l.insertionSort byScoreDesc

/-- The list-level content of saveToLeaderboard (game.js lines 782-796):
push the entry, sort descending by score, keep the first 10, persist. -/
def recordEntry (e : Entry) (lb : List Entry) : List Entry :=
  (sortEntries (lb ++ [e])).take 10

/-- saveToLeaderboard (game.js lines 782-796) acting on the game state, with
new Date() passed in as now. -/
def saveToLeaderboard (now : ℤ) (s : GameState) : GameState :=
  let entry : Entry :=
    { score := s.score, accuracy := s.accuracy,
      difficulty := s.currentDifficulty, mode := s.currentMode, date := now }
  { s with leaderboard := recordEntry entry s.leaderboard }

/-- endGame (game.js lines 409-430): stopGame, calculateFinalScore, show the
modal (dropped), saveToLeaderboard, sounds and announcements (dropped).
No state guard of its own. -/
def endGame (now : ℤ) (s : GameState) : GameState :=
  saveToLeaderboard now (calculateFinalScore (stopGame s))

/-- The session-clock interval body of startTimer (game.js lines 536-551):
timed mode decrements timeLeft and calls endGame at <= 0, endless mode
increments timeLeft. -/
def gameTimerCallback (now : ℤ) (s : GameState) : GameState :=
  if s.currentMode = Mode.timed then
    let s1 := { s with timeLeft := s.timeLeft - 1 }
    if s1.timeLeft ≤ 0 then endGame now s1 else s1
  else { s with timeLeft := s.timeLeft + 1 }

/-- resetGame (game.js lines 371-385): stopGame then resetGameState, with the
UI refresh and redraw dropped.  No state guard of its own. -/
def resetGame (s : GameState) : GameState :=
  resetGameState (stopGame s)

/-- The outcome of JSON.parse on the string persisted under the leaderboard
storage key: either the platform parser raises a SyntaxError (the string is
not JSON), or it yields a leaderboard array.  The parser itself is a browser
builtin outside the repository; only its two outcome shapes matter here. -/
inductive ParseOutcome where
  | throws
  | value (entries : List Entry)
  deriving Repr

/-- loadLeaderboard (game.js lines 772-777): read the persisted value; if one
is present, assign JSON.parse of it to the leaderboard.  There is no
try/catch, so a SyntaxError from JSON.parse propagates out of the call,
embedded as the error branch; with nothing persisted the leaderboard keeps
its initial empty value. -/
def loadLeaderboard : Option ParseOutcome → Except String (List Entry)
  | none => .ok []
  | some .throws => .error "SyntaxError: Unexpected token in JSON"
  | some (.value es) => .ok es

/-- The events the host event loop can deliver to the engine: the three
control commands wired in bindEvents, a direct endGame call, a canvas click,
a session-clock interval tick, a spawner interval tick (with its random
draws), and a per-target expiry timeout firing. -/
inductive GEvent where
  | start
  | togglePauseCmd
  | resetCmd
  | endCmd (now : ℤ)
  | click (x y : ℚ)
  | clockTick (now : ℤ)
  | spawnTick (rx ry now idFuzz : ℚ)
  | expire (id : ℚ)
  deriving DecidableEq, Repr

/-- One event-loop delivery.  A cleared interval no longer fires, so clock
and spawn ticks are gated on the registration flags; a setTimeout expiry
fires exactly once and is never cancelled by the source, so it is gated only
on its own pending entry, which firing consumes.  A TypeError thrown by the
click listener propagates to the host loop with no state mutation having
occurred. -/
def step (e : GEvent) (s : GameState) : GameState :=
  match e with
  | .start => startGame s
  | .togglePauseCmd => togglePause s
  | .resetCmd => resetGame s
  | .endCmd now => endGame now s
  | .click x y =>
      match handleCanvasClick x y s with
      | .ok s1 => s1
      | .error _ => s
  | .clockTick now => if s.gameTimerOn then gameTimerCallback now s else s
  | .spawnTick rx ry now idFuzz =>
      if s.spawnTimerOn then spawnTarget rx ry now idFuzz s else s
  | .expire id =>
      if s.pendingExpiries.contains id then
        expiryCallback id ({ s with pendingExpiries := s.pendingExpiries.erase id })
      else s

/-- Run a list of events in order. -/
def run (evs : List GEvent) (s : GameState) : GameState :=
  evs.foldl (fun s e => step e s) s

/-- The module state right after init() with nothing persisted under the
leaderboard key (game.js lines 19-31, 78), on a w by h canvas. -/
def initState (w h : ℚ) : GameState :=
  { isPlaying := false, isPaused := false, score := 0, timeLeft := 30,
    targetsHit := 0, targetsMissed := 0, accuracy := 100,
    currentDifficulty := .normal, currentMode := .timed,
    activeTargets := [], leaderboard := [], canvasW := w, canvasH := h,
    gameTimerOn := false, spawnTimerOn := false, pendingExpiries := [] }

/-- The game state instrumented with two ghost counters used only to state
the departure-count invariant: departed counts the targets that have left the
active set via a hit or via expiry during the current session, and
emptyClicks counts the resolved clicks that struck no target.  The ghost
counters never influence the game state itself. -/
structure GhostState where
  g : GameState
  departed : ℕ
  emptyClicks : ℕ
  deriving Repr

/-- One event-loop delivery on the instrumented state: the game-state
component evolves exactly by step, and the ghost counters record departures
and empty clicks, resetting with the counters on a session reset or an
effective start. -/
def gstep (e : GEvent) (t : GhostState) : GhostState :=
  match e with
  | .start =>
      if t.g.isPlaying then { t with g := startGame t.g }
      else { g := startGame t.g, departed := 0, emptyClicks := 0 }
  | .resetCmd => { g := resetGame t.g, departed := 0, emptyClicks := 0 }
  | .click x y =>
      { t with g := step (.click x y) t.g,
               emptyClicks := t.emptyClicks +
                 (if t.g.isPlaying && !t.g.isPaused
                     && (checkTargetHit x y t.g.activeTargets).isNone
                  then 1 else 0) }
  | .expire id =>
      { t with g := step (.expire id) t.g,
               departed := t.departed +
                 (if t.g.pendingExpiries.contains id
                     && t.g.activeTargets.any (fun u => u.id == id)
                  then 1 else 0) }
  | e => { t with g := step e t.g }

/-- Run a list of events on the instrumented state. -/
def grun (evs : List GEvent) (t : GhostState) : GhostState :=
  evs.foldl (fun t e => gstep e t) t

/-- targetsHit + targetsMissed equals the session's departures (via hit or
expiry) plus its clicks that struck no target. -/
def countersMatchDepartures (t : GhostState) : Prop :=
  t.g.targetsHit + t.g.targetsMissed = t.departed + t.emptyClicks

/-- accuracy agrees with the accuracy formula applied to the counters. -/
def accuracyConsistent (s : GameState) : Prop :=
  s.accuracy = accuracyOf s.targetsHit s.targetsMissed

/-- A normal-difficulty target centered at (100, 100), as spawned by
spawnTarget at Date.now() = 1000 with random draws 1/14 and 1/10 on an
800 by 600 canvas. -/
def tHundred : Target :=
  { id := 1000, x := 100, y := 100, radius := 50, spawnTime := 1000,
    lifetime := 2000, isHover := false, opacity := 1 }

/-- A second target at the same center, spawned later (Date.now() = 2000). -/
def tHundred2 : Target :=
  { id := 2000, x := 100, y := 100, radius := 50, spawnTime := 2000,
    lifetime := 2000, isHover := false, opacity := 1 }

/-- The state right after startGame from initState 800 600. -/
def sStarted : GameState :=
  { isPlaying := true, isPaused := false, score := 0, timeLeft := 30,
    targetsHit := 0, targetsMissed := 0, accuracy := 100,
    currentDifficulty := .normal, currentMode := .timed,
    activeTargets := [], leaderboard := [], canvasW := 800, canvasH := 600,
    gameTimerOn := true, spawnTimerOn := true, pendingExpiries := [] }

/-- sStarted after one spawn tick: one active target at (100, 100) with a
pending expiry timeout. -/
def sOneTarget : GameState :=
  { sStarted with activeTargets := [tHundred], pendingExpiries := [1000] }

/-- sStarted after two spawn ticks at the same position: two overlapping
active targets, tHundred spawned first and tHundred2 most recently. -/
def sTwoTargets : GameState :=
  { sStarted with activeTargets := [tHundred, tHundred2],
                  pendingExpiries := [1000, 2000] }

/-- sOneTarget after togglePause: Paused, both intervals cleared, but the
expiry timeout of the active target still pending. -/
def sPausedPending : GameState :=
  { sOneTarget with isPaused := true, gameTimerOn := false,
                    spawnTimerOn := false }

/-- A running timed session one clock tick away from timeRemaining 0, with a
nonzero running score. -/
def sLastSecond : GameState :=
  { sStarted with timeLeft := 1, score := 40, targetsHit := 2 }

/-- A leaderboard entry with the given score and fixed remaining fields. -/
def mkScoreEntry (n : ℤ) : Entry :=
  { score := n, accuracy := 100, difficulty := .normal, mode := .timed,
    date := 0 }

/-! Helper lemmas: concrete trace evaluations. -/

lemma run_oneTarget_eq :
    run [GEvent.start, GEvent.spawnTick (1/14) (1/10) 1000 0]
      (initState 800 600) = sOneTarget := by
  simp [run, step, startGame, resetGameState, updateAccuracy, accuracyOf,
    initState, sOneTarget, sStarted, spawnTarget, mkSpawnTarget, targetSize,
    targetLifetime, gameDuration, tHundred]
  norm_num

lemma run_twoTargets_eq :
    run [GEvent.start, GEvent.spawnTick (1/14) (1/10) 1000 0,
         GEvent.spawnTick (1/14) (1/10) 2000 0]
      (initState 800 600) = sTwoTargets := by
  simp [run, step, startGame, resetGameState, updateAccuracy, accuracyOf,
    initState, sTwoTargets, sStarted, spawnTarget, mkSpawnTarget, targetSize,
    targetLifetime, gameDuration, tHundred, tHundred2]
  norm_num

lemma run_paused_eq :
    run [GEvent.start, GEvent.spawnTick (1/14) (1/10) 1000 0,
         GEvent.togglePauseCmd]
      (initState 800 600) = sPausedPending := by
  simp [run, step, startGame, resetGameState, updateAccuracy, accuracyOf,
    initState, sPausedPending, sOneTarget, sStarted, spawnTarget,
    mkSpawnTarget, targetSize, targetLifetime, gameDuration, tHundred,
    togglePause, pauseGame, resumeGame]
  norm_num

lemma withinRadius_tHundred : withinRadius 100 100 tHundred = true := by
  simp [withinRadius, tHundred]

lemma withinRadius_tHundred2 : withinRadius 100 100 tHundred2 = true := by
  simp [withinRadius, tHundred2]

lemma checkTargetHit_one :
    checkTargetHit 100 100 [tHundred] = some tHundred := by
  simp [checkTargetHit, List.find?, withinRadius_tHundred]

lemma checkTargetHit_two :
    checkTargetHit 100 100 [tHundred, tHundred2] = some tHundred2 := by
  simp [checkTargetHit, List.find?, withinRadius_tHundred2]

lemma handleClick_one :
    handleCanvasClick 100 100 sOneTarget
      = Except.error "TypeError: hitTarget is not a function" := by
  simp [handleCanvasClick, checkTargetHit_one, sOneTarget, sStarted]

lemma handleClick_two :
    handleCanvasClick 100 100 sTwoTargets
      = Except.error "TypeError: hitTarget is not a function" := by
  simp [handleCanvasClick, checkTargetHit_two, sTwoTargets, sStarted]

lemma step_click_one : step (GEvent.click 100 100) sOneTarget = sOneTarget := by
  simp [step, handleClick_one]

lemma step_click_two :
    step (GEvent.click 100 100) sTwoTargets = sTwoTargets := by
  simp [step, handleClick_two]

lemma step_expire_paused :
    step (GEvent.expire 1000) sPausedPending
      = { sPausedPending with activeTargets := [], pendingExpiries := [],
                              targetsMissed := 1, accuracy := 0 } := by
  simp [step, sPausedPending, sOneTarget, sStarted, expiryCallback, tHundred,
    updateAccuracy, accuracyOf, jsRound, List.eraseP]
  norm_num

lemma endGame_initState :
    (endGame 0 (initState 800 600)).score = 2000
    ∧ (endGame 0 (initState 800 600)).leaderboard
        = [{ score := 2000, accuracy := 100, difficulty := .normal,
             mode := .timed, date := 0 }] := by
  simp [endGame, stopGame, calculateFinalScore, saveToLeaderboard, initState,
    scoreMultiplier, recordEntry, sortEntries, List.insertionSort]

lemma step_inactive_clock (now : ℤ) (u : GameState)
    (hu : u.gameTimerOn = false) : step (GEvent.clockTick now) u = u := by
  simp [step, hu]

/-! Helper lemmas: the lifecycle functions do not touch the hit and miss
counters or the accuracy field. -/

lemma endGame_counters (now : ℤ) (s : GameState) :
    (endGame now s).targetsHit = s.targetsHit
    ∧ (endGame now s).targetsMissed = s.targetsMissed
    ∧ (endGame now s).accuracy = s.accuracy := by
  unfold endGame saveToLeaderboard calculateFinalScore stopGame
  split_ifs <;> simp

lemma gameTimerCallback_counters (now : ℤ) (s : GameState) :
    (gameTimerCallback now s).targetsHit = s.targetsHit
    ∧ (gameTimerCallback now s).targetsMissed = s.targetsMissed
    ∧ (gameTimerCallback now s).accuracy = s.accuracy := by
  simp only [gameTimerCallback]
  split_ifs with h1 h2
  · exact endGame_counters now _
  · exact ⟨rfl, rfl, rfl⟩
  · exact ⟨rfl, rfl, rfl⟩

/-! Helper lemmas: every event-loop delivery preserves consistency of the
accuracy field with the accuracy formula. -/

lemma acc_step (e : GEvent) (s : GameState) (h : accuracyConsistent s) :
    accuracyConsistent (step e s) := by
  cases e with
  | start =>
      simp only [step, startGame]
      split_ifs with hp
      · exact h
      · exact rfl
  | togglePauseCmd =>
      simp only [step, togglePause, pauseGame, resumeGame]
      split_ifs <;> exact h
  | resetCmd =>
      exact rfl
  | endCmd now =>
      have hc := endGame_counters now s
      show (endGame now s).accuracy
        = accuracyOf (endGame now s).targetsHit (endGame now s).targetsMissed
      rw [hc.1, hc.2.1, hc.2.2]
      exact h
  | click x y =>
      by_cases hg : (!s.isPlaying || s.isPaused) = true
      · simp only [step, handleCanvasClick, if_pos hg]
        exact h
      · cases hc : checkTargetHit x y s.activeTargets with
        | some t =>
            simp only [step, handleCanvasClick, if_neg hg, hc]
            exact h
        | none =>
            simp only [step, handleCanvasClick, if_neg hg, hc]
            exact rfl
  | clockTick now =>
      by_cases hgt : s.gameTimerOn = true
      · simp only [step, if_pos hgt]
        have hc := gameTimerCallback_counters now s
        show (gameTimerCallback now s).accuracy
          = accuracyOf (gameTimerCallback now s).targetsHit
              (gameTimerCallback now s).targetsMissed
        rw [hc.1, hc.2.1, hc.2.2]
        exact h
      · simp only [step, if_neg hgt]
        exact h
  | spawnTick rx ry now idFuzz =>
      simp only [step, spawnTarget]
      split_ifs <;> exact h
  | expire id =>
      simp only [step]
      split_ifs with hc
      · simp only [expiryCallback]
        split_ifs with ha
        · exact rfl
        · exact h
      · exact h

lemma acc_run (evs : List GEvent) :
    ∀ s : GameState, accuracyConsistent s → accuracyConsistent (run evs s) := by
  induction evs with
  | nil => intro s h; exact h
  | cons e evs ih => intro s h; exact ih (step e s) (acc_step e s h)

/-! Helper lemmas: every event-loop delivery preserves the instrumented
departure-count equation. -/

lemma ghost_step (e : GEvent) (t : GhostState)
    (h : countersMatchDepartures t) : countersMatchDepartures (gstep e t) := by
  have h0 : t.g.targetsHit + t.g.targetsMissed
      = t.departed + t.emptyClicks := h
  cases e with
  | start =>
      simp only [gstep]
      split_ifs with hp
      · show (startGame t.g).targetsHit + (startGame t.g).targetsMissed
          = t.departed + t.emptyClicks
        simp [startGame, hp, h0]
      · show (startGame t.g).targetsHit + (startGame t.g).targetsMissed
          = 0 + 0
        simp [startGame, hp, resetGameState, updateAccuracy]
  | togglePauseCmd =>
      show (step GEvent.togglePauseCmd t.g).targetsHit
          + (step GEvent.togglePauseCmd t.g).targetsMissed
        = t.departed + t.emptyClicks
      simp only [step, togglePause, pauseGame, resumeGame]
      split_ifs <;> exact h0
  | resetCmd =>
      show (resetGame t.g).targetsHit + (resetGame t.g).targetsMissed = 0 + 0
      simp [resetGame, resetGameState, updateAccuracy]
  | endCmd now =>
      show (endGame now t.g).targetsHit + (endGame now t.g).targetsMissed
        = t.departed + t.emptyClicks
      rw [(endGame_counters now t.g).1, (endGame_counters now t.g).2.1]
      exact h0
  | clockTick now =>
      show (step (GEvent.clockTick now) t.g).targetsHit
          + (step (GEvent.clockTick now) t.g).targetsMissed
        = t.departed + t.emptyClicks
      by_cases hgt : t.g.gameTimerOn = true
      · simp only [step, if_pos hgt]
        rw [(gameTimerCallback_counters now t.g).1,
          (gameTimerCallback_counters now t.g).2.1]
        exact h0
      · simp only [step, if_neg hgt]
        exact h0
  | spawnTick rx ry now idFuzz =>
      show (step (GEvent.spawnTick rx ry now idFuzz) t.g).targetsHit
          + (step (GEvent.spawnTick rx ry now idFuzz) t.g).targetsMissed
        = t.departed + t.emptyClicks
      simp only [step, spawnTarget]
      split_ifs <;> exact h0
  | click x y =>
      by_cases hg : (!t.g.isPlaying || t.g.isPaused) = true
      · have hp : (t.g.isPlaying && !t.g.isPaused) = false := by
          cases hb : t.g.isPlaying <;> cases hb2 : t.g.isPaused <;> simp_all
        show (step (GEvent.click x y) t.g).targetsHit
            + (step (GEvent.click x y) t.g).targetsMissed
          = t.departed + (t.emptyClicks
              + if (t.g.isPlaying && !t.g.isPaused
                  && (checkTargetHit x y t.g.activeTargets).isNone) = true
                then 1 else 0)
        simp only [step, handleCanvasClick, if_pos hg]
        simp [hp, h0]
      · have hpq : t.g.isPlaying = true ∧ t.g.isPaused = false := by
          constructor <;> (by_contra hq) <;>
            (cases hb : t.g.isPlaying <;> cases hb2 : t.g.isPaused <;> simp_all)
        cases hc : checkTargetHit x y t.g.activeTargets with
        | some tt =>
            show (step (GEvent.click x y) t.g).targetsHit
                + (step (GEvent.click x y) t.g).targetsMissed
              = t.departed + (t.emptyClicks
                  + if (t.g.isPlaying && !t.g.isPaused
                      && (checkTargetHit x y t.g.activeTargets).isNone) = true
                    then 1 else 0)
            simp only [step, handleCanvasClick, if_neg hg, hc]
            simp [h0]
        | none =>
            show (step (GEvent.click x y) t.g).targetsHit
                + (step (GEvent.click x y) t.g).targetsMissed
              = t.departed + (t.emptyClicks
                  + if (t.g.isPlaying && !t.g.isPaused
                      && (checkTargetHit x y t.g.activeTargets).isNone) = true
                    then 1 else 0)
            simp only [step, handleCanvasClick, if_neg hg, hc, updateAccuracy]
            simp [hpq.1, hpq.2]
            omega
  | expire id =>
      by_cases hc : t.g.pendingExpiries.contains id = true
      · by_cases ha : (t.g.activeTargets.any fun u => u.id == id) = true
        · have hind : (t.g.pendingExpiries.contains id
              && t.g.activeTargets.any fun u => u.id == id) = true := by
            rw [hc, ha]
            rfl
          show (step (GEvent.expire id) t.g).targetsHit
              + (step (GEvent.expire id) t.g).targetsMissed
            = (t.departed + if (t.g.pendingExpiries.contains id
                  && t.g.activeTargets.any fun u => u.id == id) = true
                then 1 else 0) + t.emptyClicks
          rw [hind]
          simp only [step]
          rw [if_pos hc]
          simp only [expiryCallback, updateAccuracy]
          rw [if_pos ha]
          simp
          omega
        · have haf : (t.g.activeTargets.any fun u => u.id == id) = false := by
            simpa using ha
          have hind : (t.g.pendingExpiries.contains id
              && t.g.activeTargets.any fun u => u.id == id) = false := by
            rw [haf, Bool.and_false]
          show (step (GEvent.expire id) t.g).targetsHit
              + (step (GEvent.expire id) t.g).targetsMissed
            = (t.departed + if (t.g.pendingExpiries.contains id
                  && t.g.activeTargets.any fun u => u.id == id) = true
                then 1 else 0) + t.emptyClicks
          rw [hind]
          simp only [step]
          rw [if_pos hc]
          simp only [expiryCallback]
          rw [if_neg ha]
          simp
          omega
      · have hcf : t.g.pendingExpiries.contains id = false := by
          simpa using hc
        have hind : (t.g.pendingExpiries.contains id
            && t.g.activeTargets.any fun u => u.id == id) = false := by
          rw [hcf, Bool.false_and]
        show (step (GEvent.expire id) t.g).targetsHit
            + (step (GEvent.expire id) t.g).targetsMissed
          = (t.departed + if (t.g.pendingExpiries.contains id
                && t.g.activeTargets.any fun u => u.id == id) = true
              then 1 else 0) + t.emptyClicks
        rw [hind]
        simp only [step]
        rw [if_neg hc]
        simp
        omega

lemma ghost_run (evs : List GEvent) :
    ∀ t : GhostState, countersMatchDepartures t
      → countersMatchDepartures (grun evs t) := by
  induction evs with
  | nil => intro t h; exact h
  | cons e evs ih => intro t h; exact ih (gstep e t) (ghost_step e t h)

/-! Helper lemmas: bounds and shape of the accuracy formula. -/

lemma accuracyOf_bounds (hit mis : ℕ) :
    0 ≤ accuracyOf hit mis ∧ accuracyOf hit mis ≤ 100 := by
  unfold accuracyOf jsRound
  split_ifs with hpos
  · have hd : (0 : ℚ) < (hit : ℚ) + (mis : ℚ) := by
      have : ((hit + mis : ℕ) : ℚ) > 0 := by exact_mod_cast hpos
      push_cast at this
      linarith
    have hq0 : (0 : ℚ) ≤ ((hit : ℚ) / ((hit : ℚ) + (mis : ℚ))) * 100 := by
      positivity
    have hq1 : ((hit : ℚ) / ((hit : ℚ) + (mis : ℚ))) * 100 ≤ 100 := by
      have h1 : (hit : ℚ) / ((hit : ℚ) + (mis : ℚ)) ≤ 1 := by
        rw [div_le_one hd]
        have : (0 : ℚ) ≤ (mis : ℚ) := by positivity
        linarith
      nlinarith
    constructor
    · exact Int.le_floor.mpr (by push_cast; linarith)
    · have hlt : ((hit : ℚ) / ((hit : ℚ) + (mis : ℚ))) * 100 + 1 / 2
          < ((101 : ℤ) : ℚ) := by push_cast; linarith
      exact Int.lt_add_one_iff.mp (Int.floor_lt.mpr hlt)
  · norm_num

lemma accuracyOf_round_form (hit mis : ℕ) (h : 0 < hit + mis) :
    accuracyOf hit mis
      = jsRound (100 * (hit : ℚ) / ((hit : ℚ) + (mis : ℚ))) := by
  unfold accuracyOf
  rw [if_pos h]
  congr 1
  ring

/-! Helper lemmas: the leaderboard sort is descending and stable. -/

lemma filter_orderedInsert (k : ℤ) (a : Entry) (l : List Entry) :
    (List.orderedInsert byScoreDesc a l).filter (fun x => x.score == k)
      = if a.score = k
        then a :: l.filter (fun x => x.score == k)
        else l.filter (fun x => x.score == k) := by
  induction l with
  | nil => by_cases hk : a.score = k <;> simp [List.orderedInsert, hk]
  | cons b l ih =>
      by_cases hr : byScoreDesc a b
      · simp only [List.orderedInsert, if_pos hr]
        by_cases hk : a.score = k <;> simp [hk, List.filter_cons]
      · simp only [List.orderedInsert, if_neg hr]
        have hlt : a.score < b.score := not_le.mp hr
        by_cases hk : a.score = k
        · have hbk : (b.score == k) = false := by
            have : b.score ≠ k := by omega
            simp [this]
          rw [if_pos hk]
          simp [List.filter_cons, hbk, ih, hk]
        · rw [if_neg hk]
          simp [List.filter_cons, ih, hk]

lemma filter_sortEntries (k : ℤ) (l : List Entry) :
    (sortEntries l).filter (fun x => x.score == k)
      = l.filter (fun x => x.score == k) := by
  induction l with
  | nil => rfl
  | cons a l ih =>
      show (List.orderedInsert byScoreDesc a
          (List.insertionSort byScoreDesc l)).filter (fun x => x.score == k)
        = (a :: l).filter (fun x => x.score == k)
      rw [filter_orderedInsert]
      by_cases hk : a.score = k
      · rw [if_pos hk]
        have := ih
        simp only [sortEntries] at this
        rw [this, List.filter_cons]
        simp [hk]
      · rw [if_neg hk]
        have := ih
        simp only [sortEntries] at this
        rw [this, List.filter_cons]
        simp [hk]

lemma sorted_recordEntry (e : Entry) (lb : List Entry) :
    List.Sorted byScoreDesc (recordEntry e lb) :=
  List.Pairwise.sublist (List.take_sublist _ _)
    (List.sorted_insertionSort byScoreDesc (lb ++ [e]))

lemma length_recordEntry (e : Entry) (lb : List Entry) :
    (recordEntry e lb).length ≤ 10 := by
  simp only [recordEntry, List.length_take]
  exact min_le_left _ _

/-! Claim theorems. -/

/-- Claim C1 (code bug): the claim says a click on an active target removes
the target, increments targetsHit, adds 10 times the difficulty multiplier
to score, and recomputes accuracy.  In the code this never happens: in a
running normal-difficulty timed session reached from the initial state by
starting and spawning one target at (100, 100), a click at (100, 100) finds
the target, but the local constant named hitTarget shadows the hit-handler
function of the same name, so the handler invokes the target object itself
and throws a TypeError; the event-loop delivery leaves the whole state
unchanged, with targetsHit = 0 and score = 0 instead of the claimed
targetsHit = 1, score = 20, accuracy = 100. -/
theorem hit_click_throws_instead_of_scoring :
    run [GEvent.start, GEvent.spawnTick (1/14) (1/10) 1000 0]
      (initState 800 600) = sOneTarget
    ∧ sOneTarget.isPlaying = true
    ∧ sOneTarget.isPaused = false
    ∧ checkTargetHit 100 100 sOneTarget.activeTargets = some tHundred
    ∧ handleCanvasClick 100 100 sOneTarget
        = Except.error "TypeError: hitTarget is not a function"
    ∧ step (GEvent.click 100 100) sOneTarget = sOneTarget
    ∧ sOneTarget.targetsHit = 0
    ∧ sOneTarget.score = 0
    ∧ sOneTarget.accuracy = 100 :=
  ⟨run_oneTarget_eq, rfl, rfl, checkTargetHit_one, handleClick_one,
   step_click_one, rfl, rfl, rfl⟩

/-- Claim C2 (code bug): the claim says that after pause no pending timer
callback mutates the counters and no target self-expires while Paused.  The
code stores no handle for the per-target expiry setTimeout and cancels only
the two intervals, so in the paused session reached by start, spawn, pause,
the pending expiry of the active target still fires: it removes the target
and increments targetsMissed from 0 to 1 while the session is Paused. -/
theorem pending_expiry_fires_while_paused :
    run [GEvent.start, GEvent.spawnTick (1/14) (1/10) 1000 0,
         GEvent.togglePauseCmd] (initState 800 600) = sPausedPending
    ∧ sPausedPending.isPaused = true
    ∧ sPausedPending.targetsMissed = 0
    ∧ sPausedPending.activeTargets = [tHundred]
    ∧ (step (GEvent.expire 1000) sPausedPending).targetsMissed = 1
    ∧ (step (GEvent.expire 1000) sPausedPending).activeTargets = []
    ∧ (step (GEvent.expire 1000) sPausedPending).isPaused = true := by
  exact ⟨run_paused_eq, rfl, rfl, rfl, by rw [step_expire_paused],
    by rw [step_expire_paused], by rw [step_expire_paused]; rfl⟩

/-- Claim C3 (code bug): the claim says loading the persisted leaderboard
never throws and treats malformed data as empty history.  loadLeaderboard
calls JSON.parse with no try/catch, so when the persisted string is not
valid JSON the SyntaxError propagates out of the call instead of yielding an
empty list; only an absent persisted value yields empty history. -/
theorem loadLeaderboard_propagates_parse_error :
    loadLeaderboard (some ParseOutcome.throws)
      = Except.error "SyntaxError: Unexpected token in JSON"
    ∧ loadLeaderboard none = Except.ok [] :=
  ⟨rfl, rfl⟩

/-- Claim C4 counterexample: endGame invoked in the Idle initial state is not
a no-op: it applies the final-score formula to the idle counters, changing
score from 0 to (0 + 100 * 10) * 2 = 2000, and it records a leaderboard
entry, contradicting the claim that end while not Running leaves the state
and the persisted leaderboard unchanged. -/
theorem endGame_while_idle_mutates_state :
    (initState 800 600).isPlaying = false
    ∧ (initState 800 600).score = 0
    ∧ (initState 800 600).leaderboard = []
    ∧ (endGame 0 (initState 800 600)).score = 2000
    ∧ (endGame 0 (initState 800 600)).leaderboard
        = [{ score := 2000, accuracy := 100, difficulty := .normal,
             mode := .timed, date := 0 }] :=
  ⟨rfl, rfl, rfl, endGame_initState.1, endGame_initState.2⟩

/-- Claim C4 (amended): startGame while Running or Paused is silently
ignored, and the pause/resume toggle while not Running is silently ignored,
with no state change; but the directly exposed resetGame, resumeGame and
endGame have no state guard: resetGame while Running stops the session,
resumeGame while Idle re-registers the interval timers, and endGame while
Idle changes the score (and records a leaderboard entry). -/
theorem guarded_lifecycle_calls_are_noops :
    (∀ s : GameState, s.isPlaying = true → startGame s = s)
    ∧ (∀ s : GameState, s.isPlaying = false → togglePause s = s)
    ∧ (resetGame sStarted).isPlaying = false
    ∧ sStarted.isPlaying = true
    ∧ (resumeGame (initState 800 600)).gameTimerOn = true
    ∧ (initState 800 600).gameTimerOn = false
    ∧ (endGame 0 (initState 800 600)).score ≠ (initState 800 600).score := by
  refine ⟨fun s h => by simp [startGame, h],
          fun s h => by simp [togglePause, h],
          ?_, rfl, rfl, rfl, ?_⟩
  · simp [resetGame, resetGameState, stopGame, updateAccuracy, sStarted]
  · rw [endGame_initState.1]
    decide

/-- Witness for claim C4: the guarded no-ops evaluated at concrete states. -/
theorem guarded_lifecycle_calls_are_noops_witness :
    startGame sStarted = sStarted
    ∧ togglePause (initState 800 600) = initState 800 600 :=
  ⟨guarded_lifecycle_calls_are_noops.1 sStarted rfl,
   guarded_lifecycle_calls_are_noops.2.1 (initState 800 600) rfl⟩

/-- Claim C5 counterexample: after starting a session and clicking once at a
point with no target under it, targetsHit + targetsMissed is 1 while zero
targets have ever left the active set, contradicting the claimed equality
between the counter sum and the number of departed targets. -/
theorem click_miss_counts_without_departure :
    (grun [GEvent.start, GEvent.click 5 5]
        (GhostState.mk (initState 800 600) 0 0)).g.targetsHit
      + (grun [GEvent.start, GEvent.click 5 5]
          (GhostState.mk (initState 800 600) 0 0)).g.targetsMissed = 1
    ∧ (grun [GEvent.start, GEvent.click 5 5]
        (GhostState.mk (initState 800 600) 0 0)).departed = 0 := by
  constructor <;>
    simp [grun, gstep, step, startGame, resetGameState, updateAccuracy,
      handleCanvasClick, checkTargetHit, initState, accuracyOf]

/-- Claim C5 (amended): in every session reachable from the initial state,
targetsHit + targetsMissed equals the number of targets that have left the
active set via hit or expiry plus the number of resolved clicks that struck
no target; and no target is double-counted, because the expiry callback of a
target no longer in the active set leaves the state unchanged. -/
theorem counters_equal_departures_plus_empty_clicks :
    (∀ (evs : List GEvent) (w hgt : ℚ),
        countersMatchDepartures (grun evs (GhostState.mk (initState w hgt) 0 0)))
    ∧ ∀ (id : ℚ) (s : GameState),
        (s.activeTargets.any fun u => u.id == id) = false
        → expiryCallback id s = s := by
  constructor
  · intro evs w hgt
    exact ghost_run evs _ rfl
  · intro id s h
    simp [expiryCallback, h]

/-- Witness for claim C5: the invariant evaluated on a concrete trace, and
the expiry no-op evaluated at a state with no matching target. -/
theorem counters_equal_departures_plus_empty_clicks_witness :
    countersMatchDepartures
      (grun [GEvent.start] (GhostState.mk (initState 800 600) 0 0))
    ∧ expiryCallback 7 (initState 800 600) = initState 800 600 :=
  ⟨counters_equal_departures_plus_empty_clicks.1 [GEvent.start] 800 600,
   counters_equal_departures_plus_empty_clicks.2 7 (initState 800 600) rfl⟩

/-- Claim C6 (confirmed): when a running timed session with the clock
interval registered ticks at timeRemaining 1, the tick drives it to 0, the
session ends (isPlaying becomes false, its embedding of the Ended state),
the final score is computed as (runningScore + accuracy * 10) multiplied by
the difficulty multiplier, the clock interval is cleared in the same call,
and a further clock tick delivered to the ended session changes nothing, so
the formula is applied exactly once. -/
theorem timed_clock_reaching_zero_ends_once (s : GameState) (now now2 : ℤ)
    (hp : s.isPlaying = true) (hm : s.currentMode = Mode.timed)
    (ht : s.timeLeft = 1) (hg : s.gameTimerOn = true) :
    (step (GEvent.clockTick now) s).isPlaying = false
    ∧ (step (GEvent.clockTick now) s).score
        = (s.score + s.accuracy * 10) * scoreMultiplier s.currentDifficulty
    ∧ (step (GEvent.clockTick now) s).gameTimerOn = false
    ∧ step (GEvent.clockTick now2) (step (GEvent.clockTick now) s)
        = step (GEvent.clockTick now) s := by
  have hstep : step (GEvent.clockTick now) s
      = endGame now ({ s with timeLeft := s.timeLeft - 1 }) := by
    simp [step, hg, gameTimerCallback, hm, ht]
  have hfields :
      (endGame now ({ s with timeLeft := s.timeLeft - 1 })).isPlaying = false
      ∧ (endGame now ({ s with timeLeft := s.timeLeft - 1 })).score
          = (s.score + s.accuracy * 10) * scoreMultiplier s.currentDifficulty
      ∧ (endGame now ({ s with timeLeft := s.timeLeft - 1 })).gameTimerOn
          = false := by
    simp [endGame, stopGame, calculateFinalScore, saveToLeaderboard, hp]
  have hoff : (step (GEvent.clockTick now) s).gameTimerOn = false := by
    rw [hstep]; exact hfields.2.2
  exact ⟨by rw [hstep]; exact hfields.1,
         by rw [hstep]; exact hfields.2.1,
         hoff,
         step_inactive_clock now2 _ hoff⟩

/-- Witness for claim C6: the end-at-zero behavior evaluated on a concrete
running timed session with one second left. -/
theorem timed_clock_reaching_zero_ends_once_witness :
    (step (GEvent.clockTick 0) sLastSecond).isPlaying = false
    ∧ (step (GEvent.clockTick 0) sLastSecond).score
        = (sLastSecond.score + sLastSecond.accuracy * 10)
            * scoreMultiplier sLastSecond.currentDifficulty
    ∧ (step (GEvent.clockTick 0) sLastSecond).gameTimerOn = false
    ∧ step (GEvent.clockTick 1) (step (GEvent.clockTick 0) sLastSecond)
        = step (GEvent.clockTick 0) sLastSecond :=
  timed_clock_reaching_zero_ends_once sLastSecond 0 1 rfl rfl rfl rfl

/-- Claim C7 (confirmed): in every state reachable from the initial state,
the accuracy field equals the rounded ratio formula applied to the counters;
that formula yields 100 when no attempt has been resolved, equals
round of 100 * targetsHit / (targetsHit + targetsMissed) when some attempt
has been resolved, and always lies in the interval from 0 to 100. -/
theorem accuracy_matches_rounded_ratio_and_range :
    (∀ (evs : List GEvent) (w hgt : ℚ),
        (run evs (initState w hgt)).accuracy
          = accuracyOf (run evs (initState w hgt)).targetsHit
              (run evs (initState w hgt)).targetsMissed)
    ∧ (∀ hit mis : ℕ, 0 ≤ accuracyOf hit mis ∧ accuracyOf hit mis ≤ 100)
    ∧ accuracyOf 0 0 = 100
    ∧ ∀ hit mis : ℕ, 0 < hit + mis →
        accuracyOf hit mis
          = jsRound (100 * (hit : ℚ) / ((hit : ℚ) + (mis : ℚ))) :=
  ⟨fun evs w hgt => acc_run evs (initState w hgt) rfl,
   accuracyOf_bounds, rfl, accuracyOf_round_form⟩

/-- Witness for claim C7: the formula instantiated at three hits and one
miss on a concrete trace-independent input. -/
theorem accuracy_matches_rounded_ratio_and_range_witness :
    accuracyOf 3 1
      = jsRound (100 * ((3 : ℕ) : ℚ) / (((3 : ℕ) : ℚ) + ((1 : ℕ) : ℚ))) :=
  accuracy_matches_rounded_ratio_and_range.2.2.2 3 1 (by norm_num)

/-- Claim C8 (code bug): the selection rule of checkTargetHit, shared by
click resolution and hover lookup, does pick the most-recently-spawned of
two overlapping targets (the scan runs in reverse insertion order); but the
claimed click outcome fails: because of the hitTarget shadowing, a single
click at the shared point throws a TypeError and removes no target, leaving
both targets active and targetsHit at 0 instead of removing exactly the
most-recently-spawned one and incrementing targetsHit by 1. -/
theorem overlapping_click_selects_most_recent_but_throws :
    run [GEvent.start, GEvent.spawnTick (1/14) (1/10) 1000 0,
         GEvent.spawnTick (1/14) (1/10) 2000 0]
      (initState 800 600) = sTwoTargets
    ∧ sTwoTargets.activeTargets = [tHundred, tHundred2]
    ∧ tHundred.spawnTime = 1000
    ∧ tHundred2.spawnTime = 2000
    ∧ checkTargetHit 100 100 sTwoTargets.activeTargets = some tHundred2
    ∧ handleCanvasClick 100 100 sTwoTargets
        = Except.error "TypeError: hitTarget is not a function"
    ∧ step (GEvent.click 100 100) sTwoTargets = sTwoTargets
    ∧ sTwoTargets.targetsHit = 0 :=
  ⟨run_twoTargets_eq, rfl, rfl, rfl, checkTargetHit_two, handleClick_two,
   step_click_two, rfl⟩

/-- Claim C9 (confirmed): recording an entry yields a list sorted in
descending score order and capped at 10 entries; the sort is stable in the
sense that for every score value the subsequence of entries with that score
is exactly the one of the input, in the same order; and recording eleven
sessions with strictly increasing scores 1 to 11 leaves exactly the ten
highest scores, sorted descending. -/
theorem leaderboard_record_sorts_caps_and_is_stable :
    (∀ (e : Entry) (lb : List Entry),
        List.Sorted byScoreDesc (recordEntry e lb))
    ∧ (∀ (e : Entry) (lb : List Entry), (recordEntry e lb).length ≤ 10)
    ∧ (∀ (l : List Entry) (k : ℤ),
        (sortEntries l).filter (fun x => x.score == k)
          = l.filter (fun x => x.score == k))
    ∧ (([1,2,3,4,5,6,7,8,9,10,11] : List ℤ).foldl
        (fun lb n => recordEntry (mkScoreEntry n) lb) []).map
          (fun e => e.score)
      = [11,10,9,8,7,6,5,4,3,2] :=
  ⟨sorted_recordEntry, length_recordEntry,
   fun l k => filter_sortEntries k l, by decide⟩

/-- Claim C10 (confirmed): a spawn-timer tick delivered while the session is
not playing or is paused leaves the whole state unchanged: spawnTarget
returns immediately, adding no target to the active set and scheduling no
expiry timeout, and the event-loop delivery of such a tick is the
identity. -/
theorem spawn_tick_noop_unless_running (rx ry now idFuzz : ℚ)
    (s : GameState) (h : s.isPlaying = false ∨ s.isPaused = true) :
    spawnTarget rx ry now idFuzz s = s
    ∧ step (GEvent.spawnTick rx ry now idFuzz) s = s := by
  have hb : (!s.isPlaying || s.isPaused) = true := by
    rcases h with h | h <;> simp [h]
  have h1 : spawnTarget rx ry now idFuzz s = s := by
    simp [spawnTarget, hb]
  exact ⟨h1, by simp [step, h1]⟩

/-- Witness for claim C10: a spawn tick delivered to the concrete paused
session is the identity. -/
theorem spawn_tick_noop_unless_running_witness :
    spawnTarget 0 0 3000 0 sPausedPending = sPausedPending
    ∧ step (GEvent.spawnTick 0 0 3000 0) sPausedPending = sPausedPending :=
  spawn_tick_noop_unless_running 0 0 3000 0 sPausedPending (Or.inr rfl)

end AimTrainer
